import Mathlib

/-!
# Verification of `scan.py` (revelio-scan)

A shallow embedding of the package-security scanner `src/scan.py` and proofs
about it.  Each Python function that the properties below concern is
translated into an executable Lean definition:

* `DiscordLogger.send_alert` — the Discord alert sink (verified-secret
  counting over TruffleHog JSON-line output);
* `PackageScanner._download_and_scan` and
  `PackageScanner._download_and_scan_maven_artifact` — the
  download/extract/scan pipeline with its `try/except/finally` cleanup;
* the per-ecosystem version-resolution branches of `scan_pypi_package`,
  `scan_npm_package`, `scan_crates_package` and `scan_maven_package`;
* `PackageScanner._scan_maven_artifacts` — the Maven artifact-type loop;
* `PackageScanner.scan_from_file` — the batch driver.

Effectful steps (HTTP requests, the filesystem, the external TruffleHog
subprocess) are modelled by explicit environment records whose fields say
how each step behaves; a Python exception at a modelled step is an explicit
constructor, and a `try/except/finally` block is translated structurally: a
body function whose result is either a return value or a raised exception,
and a wrapper applying the `except` and `finally` clauses to every outcome.
-/

namespace RevelioScan

/-! ## JSON values

`scan.py` parses TruffleHog output and registry responses with `json.loads`.
JSON values are modelled by an inductive; numbers are modelled as integers
(the scanner output fields the code inspects are booleans, so no generality
is lost where the code reads them). -/

/-- A JSON value as `json.loads` produces it. -/
inductive JSON where
  | jnull : JSON
  | jbool (b : Bool) : JSON
  | jnum (n : Int) : JSON
  | jstr (s : String) : JSON
  | jarr (elems : List JSON) : JSON
  | jobj (fields : List (String × JSON)) : JSON

/-- Python dictionary lookup `d.get(k, default)` without the default:
`json.loads` keeps the last value bound to a repeated key, so the last
matching field wins. -/
def dictGet (fields : List (String × JSON)) (key : String) : Option JSON :=
  (fields.reverse.find? (fun p => p.1 == key)).map Prod.snd

/-- Python truthiness of a JSON value (`if result.get('Verified', False):`).
`False`, `0`, `""`, `[]`, `{}` and `None` are falsy, everything else truthy. -/
def pyTruthy : JSON → Bool
  | .jnull => false
  | .jbool b => b
  | .jnum n => n != 0
  | .jstr s => !s.isEmpty
  | .jarr elems => !elems.isEmpty
  | .jobj fields => !fields.isEmpty

/-! ## Python string primitives

`str.strip()` and `str.split('\n')` as the source uses them, written as
structural recursion over the character list so that they evaluate on
concrete inputs. -/

/-- The ASCII whitespace characters `str.strip()` removes (Python also
strips further Unicode whitespace; the strings the code strips are ASCII). -/
def pyIsSpace (c : Char) : Bool :=
  c == ' ' || c == '\t' || c == '\n' || c == '\r' || c == '\x0b' || c == '\x0c'

/-- Python `s.strip()`: whitespace removed from both ends. -/
def pyStrip (s : String) : String :=
  ⟨(((s.data.dropWhile pyIsSpace).reverse.dropWhile pyIsSpace)).reverse⟩

/-- Python `s.split('\n')` on the character list: `"" ↦ [""]`,
`"a\nb" ↦ ["a", "b"]`, separators are not merged. -/
def pySplitNlChars : List Char → List (List Char)
  | [] => [[]]
  | c :: rest =>
      let r := pySplitNlChars rest
      if c == '\n' then [] :: r
      else
        match r with
        | [] => [[c]]
        | h :: t => (c :: h) :: t

/-- Python `s.split('\n')`. -/
def pySplitNl (s : String) : List String :=
  (pySplitNlChars s.data).map (fun cs => ⟨cs⟩)

/-- Python truthiness of a string: `""` is falsy. -/
def pyTruthyStr (s : String) : Bool := !s.data.isEmpty

/-- Python `needle in haystack` on strings (substring containment). -/
def strContains (haystack needle : String) : Bool :=
  haystack.data.tails.any (fun t => needle.data.isPrefixOf t)

/-- Python `s.endswith(suffix)`. -/
def pyEndsWith (s suffix : String) : Bool := suffix.data.isSuffixOf s.data

/-- Python `s.startswith(p)`. -/
def pyStartsWith (s p : String) : Bool := p.data.isPrefixOf s.data

/-- Python `s.replace(old, new)` for a one-character `old` (the only shape
the code uses: `'/'→'%2F'`, `'/'→'-'`, `'.'→'/'`, `'.'→'-'`). -/
def pyReplaceChar (s : String) (old : Char) (new : String) : String :=
  ⟨s.data.flatMap (fun c => if c == old then new.data else [c])⟩

/-- Python `s.split(':', 1)` under the guarantee `':' in s`:
the part before the first colon and everything after it. -/
def pySplitColon1 (s : String) : String × String :=
  (⟨s.data.takeWhile (fun c => c != ':')⟩,
   ⟨(s.data.dropWhile (fun c => c != ':')).drop 1⟩)

/-! ## `DiscordLogger.send_alert`

The sink receives the raw TruffleHog standard output.  The code splits the
stripped output on `'\n'`, runs `json.loads` on each line inside a
`try/except` whose bare `except: continue` swallows both parse failures and
the `AttributeError` a non-object JSON value raises at `.get`, and counts
the lines whose parsed object has a truthy `'Verified'` value.  It posts
one webhook notification exactly when the webhook is configured (truthy)
and the count is positive.  JSON parsing itself is not reimplemented: the
parse is a parameter `jparse` mapping each line to its `json.loads` result
(`none` = the line raises in `json.loads`). -/

/-- One line of scanner output counts as a verified secret: it parsed to a
JSON object whose `'Verified'` value (default `False`) is Python-truthy.
A line that failed to parse, or parsed to a non-object (whose `.get` raises
`AttributeError`, caught by the bare `except`), never counts. -/
def lineCountsVerified : Option JSON → Bool
  | some (.jobj fields) => pyTruthy ((dictGet fields "Verified").getD (.jbool false))
  | _ => false

/-- Python truthiness of the `webhook_url` constructor argument (`None` and
`""` are both falsy in `if not self.webhook_url`). -/
def webhookConfigured : Option String → Bool
  | none => false
  | some s => pyTruthyStr s

/-- `DiscordLogger.send_alert`, observed through the notification it posts:
`none` = no webhook POST is made, `some c` = exactly one notification whose
"Verified Secrets" field is `c` is posted.  Mirrors the guard
`if not self.webhook_url or not secrets_found: return`, the guard
`if secrets_found.strip():` around the counting loop, and the early return
`if verified_count == 0: return`. -/
def send_alert (jparse : String → Option JSON) (webhook_url : Option String)
    (secrets_found : String) : Option Nat :=
  if !webhookConfigured webhook_url || !pyTruthyStr secrets_found then none
  else
    let verified_count :=
      if !pyTruthyStr (pyStrip secrets_found) then 0
      else ((pySplitNl (pyStrip secrets_found)).filter
              (fun line => lineCountsVerified (jparse line))).length
    if verified_count == 0 then none else some verified_count

/-- The count the code computes: lines of the stripped output whose JSON
parse is an object with truthy `'Verified'`. -/
def codeVerifiedCount (jparse : String → Option JSON) (secrets_found : String) : Nat :=
  if !pyTruthyStr (pyStrip secrets_found) then 0
  else ((pySplitNl (pyStrip secrets_found)).filter
          (fun line => lineCountsVerified (jparse line))).length

/-- One line counts for the claim exactly when it parses as a JSON object
whose `'Verified'` field is the boolean `true` (the spec's
`"Verified": true`). -/
def lineClaimVerified : Option JSON → Bool
  | some (.jobj fields) =>
      match dictGet fields "Verified" with
      | some (.jbool true) => true
      | _ => false
  | _ => false

/-- The count the claim describes: lines whose parse is a JSON object with
`'Verified'` equal to the boolean `true`. -/
def claimVerifiedCount (jparse : String → Option JSON) (secrets_found : String) : Nat :=
  if !pyTruthyStr (pyStrip secrets_found) then 0
  else ((pySplitNl (pyStrip secrets_found)).filter
          (fun line => lineClaimVerified (jparse line))).length

/-! ## Archives and the standard-library extraction routines

The downloaded bytes are classified by what they actually are, independent of
the filename: a gzip-compressed tar, an uncompressed tar, a zip archive, or
anything else.  The two stdlib calls the code makes are modelled by their
documented behaviour. -/

deriving instance DecidableEq for Except

/-- What a downloaded file actually contains. -/
inductive Archive where
  | gzTar (members : List String)    : Archive  -- gzip-compressed tar
  | plainTar (members : List String) : Archive  -- uncompressed tar
  | zipArchive (members : List String) : Archive
  | rawFile : Archive                           -- any other byte stream
deriving DecidableEq

/-- `tarfile.open(path, 'r:gz')` followed by `extractall`: mode `'r:gz'`
demands gzip compression, so it succeeds exactly on a gzip-compressed tar
(yielding its members) and raises `tarfile.ReadError` on everything else,
including an uncompressed tar. -/
def tarfileExtractRgz : Archive → Except Unit (List String)
  | .gzTar members => .ok members
  | _ => .error ()

/-- `zipfile.ZipFile(path)` followed by `extractall`: succeeds exactly on a
zip archive and raises `zipfile.BadZipFile` otherwise. -/
def zipfileExtract : Archive → Except Unit (List String)
  | .zipArchive members => .ok members
  | _ => .error ()

/-! ## `PackageScanner._download_and_scan`

The environment record says how each effectful step of one call behaves.
The `try` body is a function whose result is either a normal return or a
raised exception; `_download_and_scan` itself applies the `except` clause
(log and fall through) and the `finally` clause (remove the working
directory when one was created) to every outcome of the body. -/

/-- Behaviour of the effectful steps of one `_download_and_scan` call. -/
structure DownloadEnv where
  /-- `tempfile.mkdtemp` succeeds (when false it raises before `work_dir`
  is assigned). -/
  mkdtemp_ok : Bool
  /-- `session.get` + `raise_for_status` + writing the chunks succeed
  (a 404 on a nonexistent version makes `raise_for_status` raise, so
  this is `false` there). -/
  download_ok : Bool
  /-- `Path(urlparse(url).path).name`, the basename of the URL path. -/
  urlBasename : String
  /-- `response.headers.get('content-type', '')`. -/
  contentType : String
  /-- what the downloaded file actually contains. -/
  archive : Archive
  /-- the TruffleHog `subprocess.run` call succeeds. -/
  scan_ok : Bool

/-- The filename `_download_and_scan` decides to save under: `.crate` for
crates, else the URL basename when it is nonempty and has a dot, else a
content-type-driven fallback. -/
def resolveFilename (is_crate : Bool) (package_identifier urlBasename contentType : String) :
    String :=
  if is_crate then package_identifier ++ ".crate"
  else if pyTruthyStr urlBasename && urlBasename.data.contains '.' then urlBasename
  else if strContains contentType "zip" then package_identifier ++ ".zip"
  else package_identifier ++ ".tar.gz"

/-- The extension dispatch of `_download_and_scan` lines 573–582: the
tar-family suffixes (`.crate`, `.tar.gz`, `.tgz`, `.tar`) all go to
`tarfile.open(..., 'r:gz')`, `.zip` goes to `zipfile`, anything else is the
warn-and-return branch. -/
def tarFamilySuffix (filename : String) : Bool :=
  pyEndsWith filename ".crate" || pyEndsWith filename ".tar.gz" ||
    pyEndsWith filename ".tgz" || pyEndsWith filename ".tar"

/-- Result of the extraction step. -/
inductive ExtractResult where
  | extracted (members : List String) : ExtractResult
  | unsupported : ExtractResult  -- `[WARN] Unsupported archive format` + return
  | raised : ExtractResult       -- the extraction call raised
deriving DecidableEq

/-- The extraction step of `_download_and_scan`. -/
def extractStep (filename : String) (archive : Archive) : ExtractResult :=
  if tarFamilySuffix filename then
    match tarfileExtractRgz archive with
    | .ok members => .extracted members
    | .error _ => .raised
  else if pyEndsWith filename ".zip" then
    match zipfileExtract archive with
    | .ok members => .extracted members
    | .error _ => .raised
  else .unsupported

/-- What one `_download_and_scan` call did. -/
inductive ScanOutcome where
  | scanned (members : List String) : ScanOutcome  -- TruffleHog ran on the extracted tree
  | skippedUnsupported (filename : String) : ScanOutcome  -- unsupported-extension early return
  | errorLogged : ScanOutcome  -- an exception, caught and logged by the except clause
deriving DecidableEq

/-- A `try` body either returns a value or raises. -/
inductive TryBody (α : Type) where
  | ret (a : α) : TryBody α
  | exc : TryBody α
deriving DecidableEq

/-- The `try` body of `_download_and_scan` after the working directory
exists: download, pick the filename, extract by extension, scan. -/
def downloadAndScanBody (env : DownloadEnv) (package_identifier : String) (is_crate : Bool) :
    TryBody ScanOutcome :=
  if !env.download_ok then .exc
  else
    let filename := resolveFilename is_crate package_identifier env.urlBasename env.contentType
    match extractStep filename env.archive with
    | .unsupported => .ret (.skippedUnsupported filename)
    | .raised => .exc
    | .extracted members => if !env.scan_ok then .exc else .ret (.scanned members)

/-- One call's outcome together with the fate of its temporary directory. -/
structure RunResult where
  outcome : ScanOutcome
  dirCreated : Bool
  dirRemoved : Bool
deriving DecidableEq

/-- `PackageScanner._download_and_scan`: `try` body, `except Exception`
(log, fall through), `finally` (remove `work_dir` when it was created). -/
def _download_and_scan (env : DownloadEnv) (package_identifier : String) (is_crate : Bool) :
    RunResult :=
  if !env.mkdtemp_ok then
    -- mkdtemp raised before work_dir was assigned: except logs, finally
    -- sees work_dir = None and removes nothing
    ⟨.errorLogged, false, false⟩
  else
    match downloadAndScanBody env package_identifier is_crate with
    | .ret outcome => ⟨outcome, true, true⟩  -- finally: shutil.rmtree(work_dir)
    | .exc => ⟨.errorLogged, true, true⟩     -- except logs it, finally removes

/-! ## `PackageScanner._download_and_scan_maven_artifact`

Same shape; a `pom` artifact is saved directly as `pom.xml`, anything else
is treated as a jar and opened with `zipfile`, where `BadZipFile` is the
warn-and-return branch. -/

/-- Behaviour of the effectful steps of one Maven-artifact call. -/
structure MavenDownloadEnv where
  mkdtemp_ok : Bool
  download_ok : Bool
  archive : Archive
  scan_ok : Bool

/-- What one `_download_and_scan_maven_artifact` call did. -/
inductive MavenScanOutcome where
  | scanned (members : List String) : MavenScanOutcome  -- jar extracted and scanned
  | scannedPom : MavenScanOutcome                       -- pom.xml written and scanned
  | skippedBadZip : MavenScanOutcome  -- `[WARN] ... not a valid ZIP/JAR file` + return
  | errorLogged : MavenScanOutcome
deriving DecidableEq

/-- The `try` body of `_download_and_scan_maven_artifact`. -/
def downloadAndScanMavenBody (env : MavenDownloadEnv) (artifact_type : String) :
    TryBody MavenScanOutcome :=
  if !env.download_ok then .exc
  else if artifact_type == "pom" then
    if !env.scan_ok then .exc else .ret .scannedPom
  else
    match zipfileExtract env.archive with
    | .error _ => .ret .skippedBadZip  -- except zipfile.BadZipFile: warn; return
    | .ok members => if !env.scan_ok then .exc else .ret (.scanned members)

/-- One Maven-artifact call's outcome with the fate of its directory. -/
structure MavenRunResult where
  outcome : MavenScanOutcome
  dirCreated : Bool
  dirRemoved : Bool
deriving DecidableEq

/-- `PackageScanner._download_and_scan_maven_artifact`. -/
def _download_and_scan_maven_artifact (env : MavenDownloadEnv) (artifact_type : String) :
    MavenRunResult :=
  if !env.mkdtemp_ok then ⟨.errorLogged, false, false⟩
  else
    match downloadAndScanMavenBody env artifact_type with
    | .ret outcome => ⟨outcome, true, true⟩
    | .exc => ⟨.errorLogged, true, true⟩

/-! ## Registry clients

Each client's metadata response is modelled structurally (the shape the code
reads out of `response.json()`), with `none` for a response whose parse — or
a mandatory key access on it — raises.  The per-package scan functions
return `Except Unit …`: `.error ()` is a Python exception escaping the scan
function to its caller (none of the four has a `try/except` of its own). -/

/-- What a per-package scan call did (`ρ` is the per-version result). -/
inductive EcoOutcome (ρ : Type) where
  | metadataError (status : Nat) : EcoOutcome ρ  -- non-200 metadata response: log, return
  | versionNotFound : EcoOutcome ρ               -- `[ERROR] Version … not found`: log, return
  | noVersions : EcoOutcome ρ                    -- maven: no versions / no latest: log, return
  | badName : EcoOutcome ρ                       -- maven: name without ':': log, return
  | scanned (runs : List (String × ρ)) : EcoOutcome ρ
deriving DecidableEq

/-- The versions a `scanned` outcome scanned, in order. -/
def scannedVersions {ρ : Type} : EcoOutcome ρ → Option (List String)
  | .scanned runs => some (runs.map Prod.fst)
  | _ => none

/-! ### PyPI (`scan_pypi_package`, lines 435–483) -/

/-- One entry of `data['releases'][ver]`. -/
structure PyPIRelease where
  packagetype : String
  url : String
deriving DecidableEq

/-- The fields of the PyPI metadata response the code reads. -/
structure PyPIMeta where
  /-- `data['releases']`, a mapping version → release files, in key order. -/
  releases : List (String × List PyPIRelease)
  /-- `data['info']['version']`. -/
  infoVersion : String
deriving DecidableEq

/-- Environment of one `scan_pypi_package` call. -/
structure PyPIEnv where
  /-- status of the metadata GET. -/
  metaStatus : Nat
  /-- the parsed metadata; `none` = `response.json()` raised. -/
  meta : Option PyPIMeta
  /-- behaviour of `_download_and_scan` steps per download URL. -/
  dl : String → DownloadEnv

/-- The version-selection branch of `scan_pypi_package` (lines 450–459):
all keys of `releases` in all-versions mode; the requested version when it
is a key of `releases`, else the logged not-found return (`none`); the
registry's declared `info.version` otherwise. -/
def pypiResolveVersions (meta : PyPIMeta) (version : Option String) (all_versions : Bool) :
    Option (List String) :=
  if all_versions then some (meta.releases.map Prod.fst)
  else
    match version with
    | some v => if meta.releases.any (fun p => p.1 == v) then some [v] else none
    | none => some [meta.infoVersion]

/-- `data['releases'][ver]` (first binding; JSON object keys are unique). -/
def lookupRelease (releases : List (String × List PyPIRelease)) (ver : String) :
    Option (List PyPIRelease) :=
  (releases.find? (fun p => p.1 == ver)).map Prod.snd

/-- The sdist search: the `url` of the first release whose `packagetype`
is `'sdist'`. -/
def findSdistURL (rels : List PyPIRelease) : Option String :=
  (rels.find? (fun r => r.packagetype == "sdist")).map (fun r => r.url)

/-- `PackageScanner.scan_pypi_package`.  A per-version result of `none` is
the `[WARN] No source distribution found` continue branch. -/
def scan_pypi_package (env : PyPIEnv) (package_name : String) (version : Option String)
    (all_versions : Bool) : Except Unit (EcoOutcome (Option RunResult)) :=
  if env.metaStatus != 200 then .ok (.metadataError env.metaStatus)
  else
    match env.meta with
    | none => .error ()  -- response.json() raised; no handler in scan_pypi_package
    | some meta =>
      match pypiResolveVersions meta version all_versions with
      | none => .ok .versionNotFound
      | some versions =>
        (versions.mapM (fun ver =>
          match lookupRelease meta.releases ver with
          | none => Except.error ()  -- data['releases'][ver] raises KeyError
          | some rels =>
            match findSdistURL rels with
            | none => Except.ok (ver, none)
            | some u => Except.ok (ver,
                some (_download_and_scan (env.dl u) (package_name ++ "-" ++ ver) false)))).map
          EcoOutcome.scanned

/-! ### npm (`scan_npm_package`, lines 485–529) -/

/-- The part of `data['versions'][ver]` the code reads. -/
structure NpmVersionData where
  /-- `version_data['dist']['tarball']`. -/
  tarball : String
deriving DecidableEq

/-- The fields of the npm metadata response the code reads. -/
structure NpmMeta where
  /-- `data['versions']` in key order. -/
  versions : List (String × NpmVersionData)
  /-- `data['dist-tags']['latest']`; `none` = the key path is absent, so
  reading it raises `KeyError`. -/
  distTagsLatest : Option String
deriving DecidableEq

/-- Environment of one `scan_npm_package` call. -/
structure NpmEnv where
  metaStatus : Nat
  meta : Option NpmMeta
  dl : String → DownloadEnv

/-- The scoped-name handling (lines 491–494): a leading `@` makes the code
replace `/` by `%2F`; any other name is used unmodified. -/
def npmEncodedName (package_name : String) : String :=
  if pyStartsWith package_name "@" then pyReplaceChar package_name '/' "%2F"
  else package_name

/-- The registry lookup URL (line 497). -/
def npmRegistryURL (package_name : String) : String :=
  "https://registry.npmjs.org/" ++ npmEncodedName package_name

/-- The scan identifier passed to `_download_and_scan` (line 528):
`/` replaced by `-`, then the version appended. -/
def npmScanIdentifier (package_name ver : String) : String :=
  pyReplaceChar package_name '/' "-" ++ "-" ++ ver

/-- The download URL (line 520): `version_data['dist']['tarball']`,
verbatim from the metadata. -/
def npmTarballURL (version_data : NpmVersionData) : String :=
  version_data.tarball

/-- The version-selection branch of `scan_npm_package` (lines 506–515):
`.ok none` is the logged not-found return; the no-version case reads
`data['dist-tags']['latest']` and raises when the key path is absent. -/
def npmResolveVersions (meta : NpmMeta) (version : Option String) (all_versions : Bool) :
    Except Unit (Option (List String)) :=
  if all_versions then .ok (some (meta.versions.map Prod.fst))
  else
    match version with
    | some v => .ok (if meta.versions.any (fun p => p.1 == v) then some [v] else none)
    | none =>
      match meta.distTagsLatest with
      | none => .error ()
      | some latest => .ok (some [latest])

/-- `PackageScanner.scan_npm_package`. -/
def scan_npm_package (env : NpmEnv) (package_name : String) (version : Option String)
    (all_versions : Bool) : Except Unit (EcoOutcome RunResult) :=
  if env.metaStatus != 200 then .ok (.metadataError env.metaStatus)
  else
    match env.meta with
    | none => .error ()
    | some meta =>
      match npmResolveVersions meta version all_versions with
      | .error _ => .error ()
      | .ok none => .ok .versionNotFound
      | .ok (some versions) =>
        (versions.mapM (fun ver =>
          match (meta.versions.find? (fun (p : String × NpmVersionData) => p.1 == ver)).map
              Prod.snd with
          | none => Except.error ()  -- data['versions'][ver] raises KeyError
          | some vd => Except.ok (ver,
              _download_and_scan (env.dl (npmTarballURL vd))
                (npmScanIdentifier package_name ver) false))).map EcoOutcome.scanned

/-! ### crates.io (`scan_crates_package`, lines 389–433) -/

/-- The field of `data['crate']` the code reads. -/
structure CratesMeta where
  newest_version : String
deriving DecidableEq

/-- Environment of one `scan_crates_package` call. -/
structure CratesEnv where
  metaStatus : Nat
  meta : Option CratesMeta
  /-- status of the `/versions` GET (only consulted in all-versions mode). -/
  versionsStatus : Nat
  /-- `[v['num'] for v in versions_data['versions']]`; `none` = parsing the
  versions response raised. -/
  versionsMeta : Option (List String)
  dl : String → DownloadEnv

/-- The deterministic crates.io download URL template (line 424). -/
def cratesDownloadURL (package_name ver : String) : String :=
  "https://crates.io/api/v1/crates/" ++ package_name ++ "/" ++ ver ++ "/download"

/-- The version-selection branch of `scan_crates_package` (lines 405–418):
in all-versions mode a non-200 `/versions` response silently falls back to
the single `newest_version`; an explicit version is used unchecked; the
default is `newest_version`. -/
def cratesResolveVersions (crate_info : CratesMeta) (versionsStatus : Nat)
    (versionsMeta : Option (List String)) (version : Option String) (all_versions : Bool) :
    Except Unit (List String) :=
  if all_versions then
    if versionsStatus == 200 then
      match versionsMeta with
      | none => .error ()  -- versions_response.json() raised
      | some vs => .ok vs
    else .ok [crate_info.newest_version]
  else
    match version with
    | some v => .ok [v]
    | none => .ok [crate_info.newest_version]

/-- `PackageScanner.scan_crates_package`. -/
def scan_crates_package (env : CratesEnv) (package_name : String) (version : Option String)
    (all_versions : Bool) : Except Unit (EcoOutcome RunResult) :=
  if env.metaStatus != 200 then .ok (.metadataError env.metaStatus)
  else
    match env.meta with
    | none => .error ()  -- response.json() or data['crate'] raised
    | some crate_info =>
      match cratesResolveVersions crate_info env.versionsStatus env.versionsMeta
          version all_versions with
      | .error _ => .error ()
      | .ok versions =>
        .ok (.scanned (versions.map (fun ver => (ver,
          _download_and_scan (env.dl (cratesDownloadURL package_name ver))
            (package_name ++ "-" ++ ver) true))))

/-! ### Maven Central (`scan_maven_package` and helpers, lines 144–294) -/

/-- `_get_all_maven_versions`: on any exception during the search request
the `except` returns `[]`; otherwise the `v` field of each doc (default
`''`) is appended when truthy.  `docsV` is `doc.get('v', '')` per doc of
`data['response']['docs']`, newest first. -/
def _get_all_maven_versions (searchOk : Bool) (docsV : List String) : List String :=
  if !searchOk then []
  else docsV.filter (fun v => pyTruthyStr v)

/-- `_get_latest_maven_version`: `None` on exception or an empty doc list,
else `docs[0].get('latestVersion', '')`.  `docsLatest` is that field per
doc. -/
def _get_latest_maven_version (searchOk : Bool) (docsLatest : List String) : Option String :=
  if !searchOk then none
  else
    match docsLatest with
    | [] => none
    | d :: _ => some d

/-- The artifact types `_scan_maven_artifacts` tries, in source order
(line 249): sources JAR first, then the main JAR, then the POM. -/
def artifact_types : List (String × String) :=
  [("sources.jar", "Source JAR"), ("jar", "Main JAR"), ("pom", "POM file")]

/-- The per-type filename (lines 257–263). -/
def mavenArtifactFilename (artifact_id version artifact_type : String) : String :=
  if artifact_type == "sources.jar" then artifact_id ++ "-" ++ version ++ "-sources.jar"
  else if artifact_type == "pom" then artifact_id ++ "-" ++ version ++ ".pom"
  else artifact_id ++ "-" ++ version ++ ".jar"

/-- The repository base URL (lines 245–246): dots of the group id become
path separators. -/
def mavenBaseURL (group_id artifact_id version : String) : String :=
  "https://repo1.maven.org/maven2/" ++ pyReplaceChar group_id '.' "/" ++ "/" ++
    artifact_id ++ "/" ++ version

/-- The full download URL of one artifact type. -/
def mavenDownloadURL (group_id artifact_id version artifact_type : String) : String :=
  mavenBaseURL group_id artifact_id version ++ "/" ++
    mavenArtifactFilename artifact_id version artifact_type

/-- What happened to one artifact type in the `_scan_maven_artifacts`
loop. -/
inductive MavenAttempt where
  | headError : MavenAttempt            -- the HEAD request raised: warn, continue
  | notAvailable (status : Nat) : MavenAttempt  -- HEAD status ≠ 200: warn, continue
  | attempted (r : MavenRunResult) : MavenAttempt  -- downloaded and scanned
deriving DecidableEq

/-- `attempted`? -/
def MavenAttempt.isAttempted : MavenAttempt → Bool
  | .attempted _ => true
  | _ => false

/-- Environment of one `_scan_maven_artifacts` call, keyed by download
URL. -/
structure MavenArtifactsEnv where
  /-- result of `session.head(url)`: status code, or a raised exception. -/
  head : String → Except Unit Nat
  /-- behaviour of `_download_and_scan_maven_artifact` steps per URL. -/
  dl : String → MavenDownloadEnv

/-- `PackageScanner._scan_maven_artifacts`: every artifact type is tried in
the fixed order; a failed or non-200 HEAD is a warn-and-continue; a 200
HEAD leads to a download-and-scan call (which contains its own exceptions
and always returns).  The second component is `scanned_any`. -/
def _scan_maven_artifacts (env : MavenArtifactsEnv) (group_id artifact_id version : String) :
    List (String × MavenAttempt) × Bool :=
  let attempts := artifact_types.map (fun (p : String × String) =>
    let artifact_type := p.1
    let url := mavenDownloadURL group_id artifact_id version artifact_type
    (artifact_type,
      match env.head url with
      | .error _ => MavenAttempt.headError
      | .ok status =>
        if status != 200 then MavenAttempt.notAvailable status
        else MavenAttempt.attempted (_download_and_scan_maven_artifact (env.dl url)
          artifact_type)))
  (attempts, attempts.any (fun p => p.2.isAttempted))

/-- Environment of one `scan_maven_package` call. -/
structure MavenPkgEnv where
  /-- the search request of `_get_all_maven_versions` succeeds. -/
  allSearchOk : Bool
  /-- `doc.get('v', '')` per doc, newest first. -/
  docsV : List String
  /-- the search request of `_get_latest_maven_version` succeeds. -/
  latestSearchOk : Bool
  /-- `doc.get('latestVersion', '')` per doc. -/
  docsLatest : List String
  artEnv : MavenArtifactsEnv

/-- The version-selection branch of `scan_maven_package` (lines 157–172):
`none` is a logged early return (`No versions found` / `Could not determine
latest version`, the latter also on a falsy empty-string latest). -/
def mavenResolveVersions (env : MavenPkgEnv) (version : Option String) (all_versions : Bool) :
    Option (List String) :=
  if all_versions then
    let versions := _get_all_maven_versions env.allSearchOk env.docsV
    if versions.isEmpty then none else some versions
  else
    match version with
    | some v => some [v]
    | none =>
      match _get_latest_maven_version env.latestSearchOk env.docsLatest with
      | none => none
      | some latest => if !pyTruthyStr latest then none else some [latest]

/-- `PackageScanner.scan_maven_package`.  Total: the search helpers contain
their exceptions and `_scan_maven_artifacts` always returns. -/
def scan_maven_package (env : MavenPkgEnv) (package_name : String) (version : Option String)
    (all_versions : Bool) : EcoOutcome (List (String × MavenAttempt) × Bool) :=
  if !(package_name.data.contains ':') then .badName
  else
    let ga := pySplitColon1 package_name
    match mavenResolveVersions env version all_versions with
    | none => .noVersions
    | some versions =>
      .scanned (versions.map (fun ver =>
        (ver, _scan_maven_artifacts env.artEnv ga.1 ga.2 ver)))

/-! ## `PackageScanner.scan_from_file` (lines 113–142)

The batch driver: the file read, the whole package loop and the sleeps all
sit inside one `try` whose handlers catch `FileNotFoundError` and every
other `Exception`, so an exception raised by a per-package scan call aborts
the rest of the batch with one logged error.  The per-package scan is the
parameter `scanPkg` (`.error ()` = that scan call raised). -/

/-- What one `scan_from_file` call did. -/
structure BatchResult where
  /-- the package names whose scan call was started, in file order. -/
  attempted : List String
  /-- how many `time.sleep(delay)` calls ran. -/
  sleeps : Nat
  /-- errors logged by the two `except` clauses (0 or 1). -/
  errorsLogged : Nat
  /-- whether an exception escaped `scan_from_file` (never: both handlers
  catch). -/
  raised : Bool
deriving DecidableEq

/-- Seconds a batch call spent in `time.sleep`: each of the `sleeps` calls
slept `delay` seconds. -/
def totalSleepSeconds (r : BatchResult) (delay : ℚ) : ℚ := r.sleeps * delay

/-- The `for i, package_name in enumerate(package_names, 1)` loop: scan,
then sleep when `i < len(package_names)`; a raised scan aborts the loop. -/
def batchLoop (scanPkg : String → Except Unit Unit) (i total : Nat) :
    List String → List String × Nat × Bool
  | [] => ([], 0, false)
  | name :: rest =>
    match scanPkg name with
    | .error _ => ([name], 0, true)  -- caught by `except Exception`: abort
    | .ok _ =>
      let sleepsHere := if i < total then 1 else 0
      let r := batchLoop scanPkg (i + 1) total rest
      (name :: r.1, sleepsHere + r.2.1, r.2.2)

/-- `PackageScanner.scan_from_file`.  `fileLines = none` models
`FileNotFoundError` from `open`. -/
def scan_from_file (fileLines : Option (List String)) (scanPkg : String → Except Unit Unit) :
    BatchResult :=
  match fileLines with
  | none => ⟨[], 0, 1, false⟩  -- `[ERROR] File not found: …`
  | some lines =>
    let package_names := (lines.map pyStrip).filter (fun s => pyTruthyStr s)
    let r := batchLoop scanPkg 1 package_names.length package_names
    ⟨r.1, r.2.1, if r.2.2 then 1 else 0, false⟩

/-! ## Claim C1 — the alert sink's verified count -/

/-- A `json.loads` behaviour under which the claim as stated fails: the one
line `{"Verified": 1}` parses (as Python's `json.loads` parses it) to an
object whose `Verified` value is the number 1 — not the boolean `true`, but
Python-truthy. -/
def jparseVerifiedOne : String → Option JSON := fun line =>
  if line = "\x7b\"Verified\": 1\x7d" then some (.jobj [("Verified", .jnum 1)]) else none

/-- C1, counterexample to the claim as stated: on scanner output consisting
of the single line `{"Verified": 1}`, zero lines parse as JSON objects with
`Verified` equal to `true` (the claim's `V = 0`, so it predicts no
notification), yet `send_alert` counts 1 and posts a notification reporting
one verified secret. -/
theorem send_alert_claim_counterexample :
    send_alert jparseVerifiedOne (some "https://discord.example/webhook")
        "\x7b\"Verified\": 1\x7d" = some 1 ∧
    claimVerifiedCount jparseVerifiedOne "\x7b\"Verified\": 1\x7d" = 0 := by
  constructor <;> decide

/-- C1, amended: for every parse behaviour, webhook setting and scanner
output, `send_alert` posts exactly one notification, carrying the count of
lines whose JSON parse is an object with a Python-truthy `Verified` value
(boolean `true` included; unparsable and non-object lines are ignored and
never fatal), precisely when the webhook is configured and that count is
positive; otherwise it posts nothing. -/
theorem send_alert_truthy_count_characterization
    (jparse : String → Option JSON) (webhook_url : Option String) (secrets_found : String) :
    send_alert jparse webhook_url secrets_found =
      if webhookConfigured webhook_url = true ∧ 0 < codeVerifiedCount jparse secrets_found
      then some (codeVerifiedCount jparse secrets_found)
      else none := by
  unfold send_alert codeVerifiedCount
  by_cases hw : webhookConfigured webhook_url
  · by_cases hs : pyTruthyStr secrets_found
    · simp only [hw, hs, Bool.not_true, Bool.false_or, if_neg]
      by_cases ht : pyTruthyStr (pyStrip secrets_found)
      · simp only [ht, Bool.not_true]
        set c := ((pySplitNl (pyStrip secrets_found)).filter
          (fun line => lineCountsVerified (jparse line))).length with hc
        rcases Nat.eq_zero_or_pos c with h0 | hpos
        · simp [h0]
        · simp [hpos, Nat.ne_of_gt hpos]
      · simp [ht]
    · have hz : pyTruthyStr (pyStrip secrets_found) = false := by
        have hsd : secrets_found.data = [] := by
          have := hs
          simp [pyTruthyStr, List.isEmpty_iff] at this
          exact this
        simp [pyStrip, hsd, pyTruthyStr]
      simp [hw, hs, hz]
  · simp [hw]

/-- C1, witness for the amended theorem: a two-line output with one truthy
`Verified` line and one malformed line posts one notification counting 1. -/
theorem send_alert_truthy_count_witness :
    send_alert (fun line => if line = "\x7b\"Verified\": true\x7d"
        then some (.jobj [("Verified", .jbool true)]) else none)
      (some "https://discord.example/webhook")
      "\x7b\"Verified\": true\x7d\nnot json" = some 1 := by
  rw [send_alert_truthy_count_characterization]
  decide

/-! ## Claim C2 — the temporary directory is removed on every exit path -/

/-- C2: in both pipeline functions, for every behaviour of the environment
(normal completion, unsupported-archive or bad-zip early return, and an
exception at any stage — download, extraction, scanning), the temporary
working directory is removed before the call returns exactly when it was
created; in particular a created directory never persists. -/
theorem download_and_scan_tempdir_removed :
    (∀ (env : DownloadEnv) (package_identifier : String) (is_crate : Bool),
        (_download_and_scan env package_identifier is_crate).dirRemoved =
          (_download_and_scan env package_identifier is_crate).dirCreated) ∧
    (∀ (env : MavenDownloadEnv) (artifact_type : String),
        (_download_and_scan_maven_artifact env artifact_type).dirRemoved =
          (_download_and_scan_maven_artifact env artifact_type).dirCreated) := by
  constructor
  · intro env package_identifier is_crate
    unfold _download_and_scan
    split
    · rfl
    · split <;> rfl
  · intro env artifact_type
    unfold _download_and_scan_maven_artifact
    split
    · rfl
    · split <;> rfl

/-! ## Claim C3 — which extensions extract, and how faithfully -/

/-- An environment downloading a genuine uncompressed tar archive saved
under a `.tar` name. -/
def plainTarDownloadEnv : DownloadEnv :=
  { mkdtemp_ok := true, download_ok := true, urlBasename := "pkg-1.0.tar",
    contentType := "application/x-tar", archive := .plainTar ["pkg-1.0/setup.py"],
    scan_ok := true }

/-- An environment downloading a valid jar (zip) archive saved under a
`.jar` name. -/
def jarDownloadEnv : DownloadEnv :=
  { mkdtemp_ok := true, download_ok := true, urlBasename := "lib-1.0.jar",
    contentType := "application/java-archive",
    archive := .zipArchive ["A.class", "META-INF/MANIFEST.MF"], scan_ok := true }

/-- C3, counterexample to the claim as stated: `tar` and `jar` are in the
claim's supported set, yet (1) a genuine uncompressed `.tar` archive fails
extraction in `_download_and_scan` (opened with `'r:gz'`, a gzip-only mode,
so `tarfile.ReadError` is raised and logged — not a successful extraction),
and (2) a valid `.jar` archive hits the `Unsupported archive format` branch
of `_download_and_scan` and is skipped, not extracted. -/
theorem extraction_claim_counterexample :
    _download_and_scan plainTarDownloadEnv "pkg-1.0" false = ⟨.errorLogged, true, true⟩ ∧
    _download_and_scan jarDownloadEnv "lib-1.0" false =
      ⟨.skippedUnsupported "lib-1.0.jar", true, true⟩ := by
  constructor <;> decide

/-- C3, amended: in `_download_and_scan` the tar-family names (`.crate`,
`.tar.gz`, `.tgz`, `.tar`) extract exactly the member files of a
gzip-compressed tar but raise on an uncompressed tar (non-fatally: the
exception is caught); `.zip` names extract exactly the members of a zip
archive; every other name — `.jar` included — is a non-fatal
unsupported-format skip.  Jar archives are extracted (exactly reproducing
their members) only by `_download_and_scan_maven_artifact`, where a
non-zip file is the non-fatal bad-zip skip.  The final conjunct runs the
happy path end to end. -/
theorem extraction_dispatch_amended :
    (∀ (filename : String) (members : List String),
        tarFamilySuffix filename = true →
          extractStep filename (.gzTar members) = .extracted members) ∧
    (∀ (filename : String) (members : List String),
        tarFamilySuffix filename = true →
          extractStep filename (.plainTar members) = .raised) ∧
    (∀ (filename : String) (members : List String),
        tarFamilySuffix filename = false → pyEndsWith filename ".zip" = true →
          extractStep filename (.zipArchive members) = .extracted members) ∧
    (∀ (filename : String) (archive : Archive),
        tarFamilySuffix filename = false → pyEndsWith filename ".zip" = false →
          extractStep filename archive = .unsupported) ∧
    (∀ (env : DownloadEnv) (package_identifier : String) (is_crate : Bool),
        env.mkdtemp_ok = true → env.download_ok = true →
        extractStep (resolveFilename is_crate package_identifier env.urlBasename
            env.contentType) env.archive = .unsupported →
          _download_and_scan env package_identifier is_crate =
            ⟨.skippedUnsupported (resolveFilename is_crate package_identifier env.urlBasename
              env.contentType), true, true⟩) ∧
    (∀ (env : MavenDownloadEnv) (members : List String),
        env.mkdtemp_ok = true → env.download_ok = true → env.scan_ok = true →
        env.archive = .zipArchive members →
          _download_and_scan_maven_artifact env "jar" = ⟨.scanned members, true, true⟩) ∧
    (∀ (env : MavenDownloadEnv),
        env.mkdtemp_ok = true → env.download_ok = true →
        zipfileExtract env.archive = .error () →
          _download_and_scan_maven_artifact env "jar" = ⟨.skippedBadZip, true, true⟩) ∧
    _download_and_scan
        { mkdtemp_ok := true, download_ok := true, urlBasename := "pkg-1.0.tar.gz",
          contentType := "", archive := .gzTar ["pkg-1.0/setup.py"], scan_ok := true }
        "pkg-1.0" false = ⟨.scanned ["pkg-1.0/setup.py"], true, true⟩ := by
  refine ⟨?_, ?_, ?_, ?_, ?_, ?_, ?_, by decide⟩
  · intro filename members h
    simp [extractStep, h, tarfileExtractRgz]
  · intro filename members h
    simp [extractStep, h, tarfileExtractRgz]
  · intro filename members h1 h2
    simp [extractStep, h1, h2, zipfileExtract]
  · intro filename archive h1 h2
    simp [extractStep, h1, h2]
  · intro env package_identifier is_crate h1 h2 hx
    simp [_download_and_scan, downloadAndScanBody, h1, h2, hx]
  · intro env members h1 h2 h3 h4
    simp [_download_and_scan_maven_artifact, downloadAndScanMavenBody, h1, h2, h3, h4,
      zipfileExtract]
  · intro env h1 h2 h3
    simp [_download_and_scan_maven_artifact, downloadAndScanMavenBody, h1, h2, h3]

/-- C3, witness for the amended theorem: each guarded conjunct applied at a
concrete input. -/
theorem extraction_dispatch_amended_witness :
    extractStep "demo-0.1.tgz" (.gzTar ["demo/src.rs"]) = .extracted ["demo/src.rs"] ∧
    extractStep "demo-0.1.tar" (.plainTar ["demo/src.rs"]) = .raised ∧
    extractStep "demo-0.1.zip" (.zipArchive ["demo/src.rs"]) = .extracted ["demo/src.rs"] ∧
    extractStep "demo-0.1.exe" .rawFile = .unsupported := by
  refine ⟨extraction_dispatch_amended.1 _ _ (by decide),
    extraction_dispatch_amended.2.1 _ _ (by decide),
    extraction_dispatch_amended.2.2.1 _ _ (by decide) (by decide),
    extraction_dispatch_amended.2.2.2.1 _ _ (by decide) (by decide)⟩

/-! ## Claim C4 — scoped-npm-name encoding appears only in the lookup -/

/-- The character probe behind the claim that the replacement result holds
no slash: replacing every occurrence of a character by a string not
containing it leaves no occurrence. -/
theorem replaceChar_not_mem (old : Char) (new : String) (hnew : old ∉ new.data)
    (s : String) : old ∉ (pyReplaceChar s old new).data := by
  intro hmem
  rcases List.mem_flatMap.mp hmem with ⟨c, _, hc⟩
  by_cases h : c = old
  · simp [h] at hc
    exact hnew hc
  · simp [h] at hc
    exact h hc.symm

/-- C4: the registry lookup URL of a scoped name (leading `@`) contains the
name with `/` replaced by `%2F`; an unscoped name is used unmodified; the
tarball download URL is the metadata's `dist.tarball` verbatim; and the
scan identifier replaces `/` by `-` (so it contains no `/` to encode), with
the concrete scoped example `@babel/core` evaluated. -/
theorem npm_scoped_name_encoding :
    (∀ package_name : String, pyStartsWith package_name "@" = true →
        npmRegistryURL package_name =
          "https://registry.npmjs.org/" ++ pyReplaceChar package_name '/' "%2F") ∧
    (∀ package_name : String, pyStartsWith package_name "@" = false →
        npmRegistryURL package_name = "https://registry.npmjs.org/" ++ package_name) ∧
    npmRegistryURL "@babel/core" = "https://registry.npmjs.org/@babel%2Fcore" ∧
    npmRegistryURL "lodash" = "https://registry.npmjs.org/lodash" ∧
    (∀ version_data : NpmVersionData, npmTarballURL version_data = version_data.tarball) ∧
    (∀ package_name ver : String,
        npmScanIdentifier package_name ver =
          pyReplaceChar package_name '/' "-" ++ "-" ++ ver) ∧
    (∀ package_name : String, '/' ∉ (pyReplaceChar package_name '/' "-").data) ∧
    npmScanIdentifier "@babel/core" "7.0.0" = "@babel-core-7.0.0" ∧
    strContains (npmScanIdentifier "@babel/core" "7.0.0") "%2F" = false := by
  refine ⟨?_, ?_, by decide, by decide, fun _ => rfl, fun _ _ => rfl, ?_, by decide, by decide⟩
  · intro package_name h
    simp [npmRegistryURL, npmEncodedName, h]
  · intro package_name h
    simp [npmRegistryURL, npmEncodedName, h]
  · intro package_name
    exact replaceChar_not_mem '/' "-" (by decide) package_name

/-! ## Claim C5 — "latest" is the registry's declared latest -/

/-- C5: with no explicit version and all-versions off, each client resolves
exactly the registry's declared latest — PyPI's `info.version`, npm's
`dist-tags.latest`, crates.io's `newest_version`, Maven's `latestVersion`
of the first search doc — never the largest key of the versions mapping;
the synthetic two-version responses with declared latest `1.0.0` resolve to
`1.0.0`, not `2.0.0`. -/
theorem latest_version_resolution :
    (∀ meta : PyPIMeta, pypiResolveVersions meta none false = some [meta.infoVersion]) ∧
    pypiResolveVersions ⟨[("1.0.0", []), ("2.0.0", [])], "1.0.0"⟩ none false =
      some ["1.0.0"] ∧
    (∀ (meta : NpmMeta) (latest : String), meta.distTagsLatest = some latest →
        npmResolveVersions meta none false = .ok (some [latest])) ∧
    npmResolveVersions ⟨[("1.0.0", ⟨"u1"⟩), ("2.0.0", ⟨"u2"⟩)], some "1.0.0"⟩ none false =
      .ok (some ["1.0.0"]) ∧
    (∀ (crate_info : CratesMeta) (versionsStatus : Nat)
        (versionsMeta : Option (List String)),
        cratesResolveVersions crate_info versionsStatus versionsMeta none false =
          .ok [crate_info.newest_version]) ∧
    (∀ (env : MavenPkgEnv) (d : String) (ds : List String),
        env.latestSearchOk = true → env.docsLatest = d :: ds → pyTruthyStr d = true →
          mavenResolveVersions env none false = some [d]) := by
  refine ⟨fun _ => rfl, by decide, ?_, by decide, fun _ _ _ => rfl, ?_⟩
  · intro meta latest h
    simp [npmResolveVersions, h]
  · intro env d ds h1 h2 h3
    simp [mavenResolveVersions, _get_latest_maven_version, h1, h2, h3]

/-! ## Claim C6 — a nonexistent explicit version is a logged skip -/

/-- C6: for each ecosystem, requesting a version the registry does not have
ends in a logged skip and no exception reaches the caller.  PyPI and npm
detect the absent key and return `versionNotFound`; crates.io builds the
deterministic download URL, whose 404 makes `raise_for_status` raise inside
`_download_and_scan`, where the exception is caught and logged; Maven's
HEAD checks all come back 404, so every artifact type is a warn-and-skip
and the call returns normally.  The last conjunct is a concrete PyPI
instance. -/
theorem nonexistent_version_skips :
    (∀ (env : PyPIEnv) (meta : PyPIMeta) (package_name v : String),
        env.metaStatus = 200 → env.meta = some meta →
        meta.releases.any (fun p => p.1 == v) = false →
          scan_pypi_package env package_name (some v) false = .ok .versionNotFound) ∧
    (∀ (env : NpmEnv) (meta : NpmMeta) (package_name v : String),
        env.metaStatus = 200 → env.meta = some meta →
        meta.versions.any (fun p => p.1 == v) = false →
          scan_npm_package env package_name (some v) false = .ok .versionNotFound) ∧
    (∀ (env : CratesEnv) (crate_info : CratesMeta) (package_name v : String),
        env.metaStatus = 200 → env.meta = some crate_info →
        (env.dl (cratesDownloadURL package_name v)).mkdtemp_ok = true →
        (env.dl (cratesDownloadURL package_name v)).download_ok = false →
          scan_crates_package env package_name (some v) false =
            .ok (.scanned [(v, ⟨.errorLogged, true, true⟩)])) ∧
    (∀ (env : MavenPkgEnv) (package_name v : String),
        package_name.data.contains ':' = true →
        (∀ url, env.artEnv.head url = .ok 404) →
          scan_maven_package env package_name (some v) false =
            .scanned [(v, ([("sources.jar", .notAvailable 404), ("jar", .notAvailable 404),
              ("pom", .notAvailable 404)], false))]) ∧
    scan_pypi_package
        { metaStatus := 200, meta := some ⟨[("1.0.0", [])], "1.0.0"⟩,
          dl := fun _ => ⟨true, false, "", "", .rawFile, false⟩ }
        "requests" (some "9.9.9") false = .ok .versionNotFound := by
  refine ⟨?_, ?_, ?_, ?_, by decide⟩
  · intro env meta package_name v h200 hmeta hv
    simp [scan_pypi_package, h200, hmeta, pypiResolveVersions, hv]
  · intro env meta package_name v h200 hmeta hv
    simp [scan_npm_package, h200, hmeta, npmResolveVersions, hv]
  · intro env crate_info package_name v h200 hmeta hmk hdl
    simp [scan_crates_package, h200, hmeta, cratesResolveVersions, _download_and_scan,
      downloadAndScanBody, hmk, hdl]
  · intro env package_name v hcolon hhead
    have hc : ':' ∈ package_name.data := by simpa using hcolon
    simp [scan_maven_package, hc, mavenResolveVersions, _scan_maven_artifacts,
      artifact_types, hhead, MavenAttempt.isAttempted]

/-! ## Claim C7 — Maven artifact order and HEAD gating -/

/-- The gate on one artifact type of the `_scan_maven_artifacts` loop: the
download-and-scan call happens exactly when the HEAD check returned 200. -/
theorem mavenHeadGate (env : MavenArtifactsEnv) (url s : String) :
    ((match env.head url with
      | Except.error _ => MavenAttempt.headError
      | Except.ok status =>
        if status != 200 then MavenAttempt.notAvailable status
        else MavenAttempt.attempted
          (_download_and_scan_maven_artifact (env.dl url) s)).isAttempted = true) ↔
      env.head url = Except.ok 200 := by
  cases hq : env.head url with
  | error e => simp [MavenAttempt.isAttempted]
  | ok status =>
    by_cases hs : status = 200
    · subst hs
      simp [MavenAttempt.isAttempted]
    · simp [MavenAttempt.isAttempted, hs, Ne.symm hs]

/-- C7: `_scan_maven_artifacts` attempts exactly the three artifact types
sources JAR, main JAR, POM, in that fixed order; an artifact type is
downloaded and scanned precisely when the HEAD check of its URL returned
HTTP 200; and when all three HEAD checks return 200 all three are scanned —
the loop never stops after the first success. -/
theorem maven_artifact_order_and_head_gating :
    (∀ (env : MavenArtifactsEnv) (g a v : String),
        (_scan_maven_artifacts env g a v).1.map Prod.fst = ["sources.jar", "jar", "pom"]) ∧
    (∀ (env : MavenArtifactsEnv) (g a v t : String) (att : MavenAttempt),
        (t, att) ∈ (_scan_maven_artifacts env g a v).1 →
          (att.isAttempted = true ↔ env.head (mavenDownloadURL g a v t) = .ok 200)) ∧
    (∀ (env : MavenArtifactsEnv) (g a v : String),
        (∀ url, env.head url = .ok 200) →
          (_scan_maven_artifacts env g a v).1.map (fun p => p.2.isAttempted) =
              [true, true, true] ∧
            (_scan_maven_artifacts env g a v).2 = true) := by
  refine ⟨fun env g a v => rfl, ?_, ?_⟩
  · intro env g a v t att hmem
    simp only [_scan_maven_artifacts, artifact_types, List.map_cons, List.map_nil,
      List.mem_cons, List.not_mem_nil, or_false] at hmem
    rcases hmem with h | h | h <;>
      · injection h with ht hatt
        subst ht
        subst hatt
        exact mavenHeadGate env _ _
  · intro env g a v hall
    constructor <;>
      simp [_scan_maven_artifacts, artifact_types, hall, MavenAttempt.isAttempted]

/-! ## Claim C8 — a missing batch input file -/

/-- C8: a missing input file makes `scan_from_file` log exactly one error,
attempt zero packages, sleep zero times and return without raising,
whatever the per-package scanner and delay are. -/
theorem missing_batch_file_single_error
    (scanPkg : String → Except Unit Unit) (delay : ℚ) :
    scan_from_file none scanPkg = ⟨[], 0, 1, false⟩ ∧
      totalSleepSeconds (scan_from_file none scanPkg) delay = 0 :=
  ⟨rfl, by simp [totalSleepSeconds, scan_from_file]⟩

/-! ## Claim C9 — the batch driver's iteration and sleep count -/

/-- The loop invariant behind the batch driver: when every scan call
returns normally and the 1-based index bookkeeping matches
(`i + length = total + 1`, as it does at the top-level call `i = 1`,
`total = length`), the loop attempts every name in order, sleeps once per
iteration except the last, and never aborts. -/
theorem batchLoop_all_ok (scanPkg : String → Except Unit Unit)
    (h : ∀ name, scanPkg name = .ok ()) :
    ∀ (names : List String) (i total : Nat), i + names.length = total + 1 →
      batchLoop scanPkg i total names = (names, names.length - 1, false) := by
  intro names
  induction names with
  | nil => intro i total hit; rfl
  | cons name rest ih =>
    intro i total hit
    simp only [batchLoop, h name]
    rw [ih (i + 1) total (by simp at hit; omega)]
    simp only [List.length_cons] at hit ⊢
    rcases rest with _ | ⟨r, rs⟩
    · simp only [List.length_nil] at hit ⊢
      have : ¬i < total := by omega
      simp [this]
    · simp only [List.length_cons] at hit ⊢
      have : i < total := by omega
      simp [this]
      omega

/-- The concrete scan behaviour grounding the counterexample: the registry
answers every metadata GET with HTTP 200, but the body returned for
`pkg-a` is not valid JSON, so `response.json()` raises inside
`scan_pypi_package` — which has no handler. -/
def abortingBatchScan : String → Except Unit Unit := fun package_name =>
  (scan_pypi_package
      { metaStatus := 200,
        meta := if package_name = "pkg-a" then none else some ⟨[("1.0.0", [])], "1.0.0"⟩,
        dl := fun _ => ⟨true, true, "x.tar.gz", "", .gzTar [], true⟩ }
      package_name none false).map (fun _ => ())

/-- C9, counterexample to the claim as stated: a batch file with the three
non-blank lines `pkg-a`, `pkg-b`, `pkg-c` under a scan behaviour in which
the first package's metadata body fails to parse.  The exception escapes
`scan_pypi_package` into `scan_from_file`'s blanket `except Exception`
handler, so only one package is attempted and the driver sleeps zero
times — not three packages and two sleeps as the claim states. -/
theorem batch_driver_claim_counterexample :
    scan_from_file (some ["pkg-a", "pkg-b", "pkg-c"]) abortingBatchScan =
      ⟨["pkg-a"], 0, 1, false⟩ ∧
    abortingBatchScan "pkg-a" = .error () := by
  constructor <;> decide

/-- C9, amended: provided every per-package scan call returns normally, the
batch driver attempts the file's stripped non-blank names, all of them and
in file order, sleeps exactly `n - 1` times (never after the last package),
logs no error and raises nothing — so with delay 0 it spends 0 seconds
sleeping.  (When a scan call raises, the batch aborts with one logged
error instead.) -/
theorem batch_processes_all_when_scans_return
    (fileLines : List String) (scanPkg : String → Except Unit Unit) (delay : ℚ)
    (h : ∀ name, scanPkg name = .ok ()) :
    scan_from_file (some fileLines) scanPkg =
      ⟨(fileLines.map pyStrip).filter (fun s => pyTruthyStr s),
        ((fileLines.map pyStrip).filter (fun s => pyTruthyStr s)).length - 1,
        0, false⟩ ∧
    (delay = 0 → totalSleepSeconds (scan_from_file (some fileLines) scanPkg) delay = 0) := by
  constructor
  · simp only [scan_from_file]
    rw [batchLoop_all_ok scanPkg h _ 1
      ((fileLines.map pyStrip).filter (fun s => pyTruthyStr s)).length (by omega)]
    rfl
  · intro hd
    simp [totalSleepSeconds, hd]

/-- C9, witness for the amended theorem: a four-line file with one blank
line, a trimmed name and delay 0 attempts its three names in order with
two sleeps and zero seconds slept. -/
theorem batch_processes_all_witness :
    scan_from_file (some ["pkg-a", "", " pkg-b ", "pkg-c"]) (fun _ => .ok ()) =
      ⟨["pkg-a", "pkg-b", "pkg-c"], 2, 0, false⟩ ∧
    totalSleepSeconds
      (scan_from_file (some ["pkg-a", "", " pkg-b ", "pkg-c"]) (fun _ => .ok ())) 0 = 0 := by
  obtain ⟨h1, h2⟩ := batch_processes_all_when_scans_return ["pkg-a", "", " pkg-b ", "pkg-c"]
    (fun _ => .ok ()) 0 (fun name => rfl)
  refine ⟨?_, h2 rfl⟩
  rw [h1]
  decide

/-! ## Claim C10 — crates.io all-versions fallback -/

/-- C10: in all-versions mode, when the crate metadata GET succeeded but
the `/versions` endpoint answered non-200, `scan_crates_package` silently
falls back to scanning exactly the single `newest_version` from the crate
metadata — no skip, no error outcome, no exception. -/
theorem crates_versions_endpoint_fallback
    (env : CratesEnv) (crate_info : CratesMeta) (package_name : String)
    (h200 : env.metaStatus = 200) (hmeta : env.meta = some crate_info)
    (hv : env.versionsStatus ≠ 200) :
    scan_crates_package env package_name none true =
      .ok (.scanned [(crate_info.newest_version,
        _download_and_scan (env.dl (cratesDownloadURL package_name crate_info.newest_version))
          (package_name ++ "-" ++ crate_info.newest_version) true)]) := by
  simp [scan_crates_package, h200, hmeta, cratesResolveVersions, hv]

/-- C10, witness: a concrete environment with `newest_version = "1.2.3"`
and a 500 from the versions endpoint scans exactly version 1.2.3. -/
theorem crates_versions_endpoint_fallback_witness :
    scan_crates_package
        { metaStatus := 200, meta := some ⟨"1.2.3"⟩, versionsStatus := 500,
          versionsMeta := none,
          dl := fun _ => ⟨true, true, "", "", .gzTar ["serde-1.2.3/src/lib.rs"], true⟩ }
        "serde" none true =
      .ok (.scanned [("1.2.3", ⟨.scanned ["serde-1.2.3/src/lib.rs"], true, true⟩)]) := by
  rw [crates_versions_endpoint_fallback _ ⟨"1.2.3"⟩ "serde" rfl rfl (by decide)]
  decide

end RevelioScan
